import Mathlib

/-!
Shallow embedding of the OB/GYN citation-validation service (`src/main.py`)
and proofs of its specified properties.

The service has three pieces of logic:
* `validate_citation` — the citation validator (allow-list check, page fetch,
  HTTP-status check, broken-page substring heuristic);
* `get_citations` — the topic-indexed bibliography lookup;
* static data: the approved-source set and the citations dictionary.

The outbound HTTP fetch is modelled as a collaborator function
`String → FetchResult`: the Python `requests.get` either raises (modelled as
`FetchResult.failure` carrying the stringified exception detail) or returns a
response with a status code and a body.  Python string lowercasing and the
`in` substring test are modelled by `strLower` and `containsSub` on the
character lists underlying `String`.
-/

/-- A bibliography entry, mirroring the dictionaries in the Python
`CITATIONS` constant. -/
structure CitationRecord where
  title : String
  authors : String
  source : String
  year : Nat
  url : String
  doi : String
  abstract : String
deriving DecidableEq

/-- The `APPROVED` set of the source, as a duplicate-free list of URL
strings.  Membership is exact string equality, as in the Python `in` test
on a set of strings. -/
def APPROVED : List String :=
  [ "https://www.acog.org/clinical/clinical-guidance/clinical-practice-update"
  , "https://www.smfm.org/clinical-guidance"
  , "https://onlinelibrary.wiley.com/journal/29979684"
  , "https://www.sgo.org/practice-management/statements-and-recommendations/"
  , "https://www.asrm.org/practice-guidance/practice-committee-documents/"
  , "https://www.ncbi.nlm.nih.gov/books/NBK430685/"
  , "https://radiopaedia.org/"
  , "https://perinatology.com/"
  , "https://www.cdc.gov/reproductivehealth/index.html"
  , "https://www.ncbi.nlm.nih.gov/pmc/"
  , "https://www.exxcellence.org/list-of-monographs/"
  , "https://www.obgproject.com/"
  , "https://www.creogsovercoffee.com/" ]

/-- The records under the `"pcos"` key of the Python `CITATIONS` dict. -/
def pcos_records : List CitationRecord :=
  [ { title := "Polycystic Ovary Syndrome: Diagnosis and Management"
    , authors := "ACOG Committee on Gynecologic Practice"
    , source := "American College of Obstetricians and Gynecologists"
    , year := 2024
    , url := "https://www.acog.org/clinical/clinical-guidance/clinical-practice-update"
    , doi := "10.1097/AOG.0000000000005434"
    , abstract := "Clinical practice update on diagnosis and management of PCOS including metabolic considerations." }
  , { title := "PCOS Metabolic Management Guidelines"
    , authors := "Society for Maternal-Fetal Medicine"
    , source := "SMFM Clinical Guidance"
    , year := 2023
    , url := "https://www.smfm.org/clinical-guidance"
    , doi := "10.1016/j.ajog.2023.05.021"
    , abstract := "Evidence-based guidelines for metabolic management of women with PCOS." }
  , { title := "Fertility Treatment in PCOS Patients"
    , authors := "American Society for Reproductive Medicine"
    , source := "ASRM Practice Committee"
    , year := 2023
    , url := "https://www.asrm.org/practice-guidance/practice-committee-documents/"
    , doi := "10.1016/j.fertnstert.2023.03.018"
    , abstract := "Comprehensive review of fertility treatment options for women with PCOS." } ]

/-- The records under the `"endometriosis"` key of the Python `CITATIONS`
dict. -/
def endometriosis_records : List CitationRecord :=
  [ { title := "Endometriosis: Diagnosis and Management"
    , authors := "ACOG Committee on Gynecologic Practice"
    , source := "American College of Obstetricians and Gynecologists"
    , year := 2024
    , url := "https://www.acog.org/clinical/clinical-guidance/clinical-practice-update"
    , doi := "10.1097/AOG.0000000000005567"
    , abstract := "Updated guidelines for diagnosis and treatment of endometriosis." } ]

/-- The records under the `"preeclampsia"` key of the Python `CITATIONS`
dict. -/
def preeclampsia_records : List CitationRecord :=
  [ { title := "Preeclampsia Prevention and Management"
    , authors := "Society for Maternal-Fetal Medicine"
    , source := "SMFM Clinical Guidance"
    , year := 2024
    , url := "https://www.smfm.org/clinical-guidance"
    , doi := "10.1016/j.ajog.2024.02.018"
    , abstract := "Evidence-based approach to preeclampsia prevention and management." } ]

/-- The Python `CITATIONS` dict: an insertion-ordered association list from
topic key to its records. -/
def CITATIONS : List (String × List CitationRecord) :=
  [ ("pcos", pcos_records)
  , ("endometriosis", endometriosis_records)
  , ("preeclampsia", preeclampsia_records) ]

/-- The request body of `POST /validate-citation` (Pydantic model
`CitationRequest`). -/
structure CitationRequest where
  claim : String
  citation_url : String
deriving DecidableEq

/-- Outcome of the single `requests.get(url, timeout=10)` call: either the
call raises (transport failure, carrying the stringified exception) or it
returns a response with a status code and a body text. -/
inductive FetchResult where
  | failure (detail : String)
  | success (status : Nat) (body : String)
deriving DecidableEq

/-- The JSON object returned by `validate_citation`. -/
structure ValidationVerdict where
  is_approved : Bool
  formatted_citation : String
  flag_for_audit : Bool
  message : String
deriving DecidableEq

/-- Python `str.lower()` on the character sequence of a string (ASCII
letters, as in `Char.toLower`). -/
def strLower (s : String) : String := ⟨s.data.map Char.toLower⟩

/-- Python `bp in page` on character lists: `bp` occurs as a contiguous
substring of `page`. -/
def listContains (page : List Char) (bp : List Char) : Bool :=
  match page with
  | [] => bp.isEmpty
  | _ :: t => bp.isPrefixOf page || listContains t bp

/-- Python `bp in page` on strings. -/
def containsSub (page : String) (bp : String) : Bool :=
  listContains page.data bp.data

/-- The `bad_phrases` list of the source: the five broken-page indicator
substrings. -/
def bad_phrases : List String :=
  ["page not found", "has moved", "redirect", "not available", "error"]

/-- The rejection verdict shared by every failing branch of the source:
only the message differs between branches. -/
def rejection (msg : String) : ValidationVerdict :=
  { is_approved := false
  , formatted_citation := "Source limitation for this claim"
  , flag_for_audit := true
  , message := msg }

/-- `validate_citation` from `src/main.py`, with the page fetcher passed
explicitly as a collaborator.  The branches appear in the order of the source:
allow-list check, transport failure, non-200 status, broken-page substring
heuristic, approval. -/
def validate_citation (data : CitationRequest) (fetch : String → FetchResult) :
    ValidationVerdict :=
  let url := data.citation_url
  if url ∉ APPROVED then
    rejection "URL not in approved list"
  else
    match fetch url with
    | .failure e => rejection ("Fetch error: " ++ e)
    | .success status body =>
      if status ≠ 200 then
        rejection ("HTTP error code: " ++ toString status)
      else
        let page := strLower body
        if bad_phrases.any (fun bp => containsSub page bp) then
          rejection "Page loads but is broken/moved"
        else
          { is_approved := true
          , formatted_citation := "(" ++ url ++ ")"
          , flag_for_audit := false
          , message := "Citation is approved and working" }

/-- The JSON object returned by `GET /citations`; fields that a branch of
the source omits are `none`. -/
structure CitationsResponse where
  topic : Option String
  citations : List CitationRecord
  count : Nat
  message : Option String
  available_topics : Option (List String)
  approved_sources : Option (List String)
  service : String
  version : String
deriving DecidableEq

/-- The all-citations response of the `else` branch of the source: the loop
`all_citations.extend(citations)` over the dict is the fold below. -/
def all_citations_response : CitationsResponse :=
  let all_citations := CITATIONS.foldl (fun acc p => acc ++ p.2) []
  { topic := none
  , citations := all_citations
  , count := all_citations.length
  , message := none
  , available_topics := some (CITATIONS.map Prod.fst)
  , approved_sources := some APPROVED
  , service := "OB/GYN Citation Microservice"
  , version := "1.0.0" }

/-- `get_citations` from `src/main.py`.  The query parameter is optional;
the Python `if topic:` test is string truthiness, so an empty string takes the
`else` (all-citations) branch exactly like an absent parameter. -/
def get_citations : Option String → CitationsResponse
  | some t =>
    if t ≠ "" then
      match List.lookup (strLower t) CITATIONS with
      | some recs =>
        { topic := some (strLower t)
        , citations := recs
        , count := recs.length
        , message := none
        , available_topics := none
        , approved_sources := none
        , service := "OB/GYN Citation Microservice"
        , version := "1.0.0" }
      | none =>
        { topic := some (strLower t)
        , citations := []
        , count := 0
        , message := some ("No citations found for topic \x27" ++ strLower t ++ "\x27")
        , available_topics := some (CITATIONS.map Prod.fst)
        , approved_sources := none
        , service := "OB/GYN Citation Microservice"
        , version := "1.0.0" }
    else
      all_citations_response
  | none => all_citations_response

example : strLower "PCOS" = "pcos" := by decide
example : containsSub (strLower "an unrelated Error here") "error" = true := by decide
example : containsSub (strLower "all fine here") "error" = false := by decide
example : List.lookup "pcos" CITATIONS = some pcos_records := by decide
example : (toString 404 : String) = "404" := by decide
example : ("https://radiopaedia.org/" ∈ APPROVED) := by decide

/-! ### Supporting lemmas -/

theorem toNat_ofNat_valid (n : Nat) (h : n < 0xd800) : (Char.ofNat n).toNat = n := by
  rw [Char.ofNat, dif_pos (Or.inl h)]
  rfl

theorem char_toLower_idem (c : Char) : c.toLower.toLower = c.toLower := by
  unfold Char.toLower
  by_cases h : c.toNat ≥ 65 ∧ c.toNat ≤ 90
  · rw [if_pos h]
    have h2 : (Char.ofNat (c.toNat + 32)).toNat = c.toNat + 32 :=
      toNat_ofNat_valid _ (by omega)
    rw [if_neg (by omega)]
  · rw [if_neg h, if_neg h]

theorem strLower_idem (s : String) : strLower (strLower s) = strLower s := by
  unfold strLower
  congr 1
  rw [List.map_map]
  exact List.map_congr_left fun c _ => char_toLower_idem c

theorem strLower_ne_empty (s : String) (h : s ≠ "") : strLower s ≠ "" := by
  intro he
  apply h
  have hd : s.data.map Char.toLower = [] := congrArg String.data he
  cases s
  simp_all

/-- The executable substring test agrees with the mathematical infix
relation on character lists. -/
theorem listContains_iff_infix (bp page : List Char) :
    listContains page bp = true ↔ bp <:+: page := by
  induction page with
  | nil =>
    simp [listContains, List.isEmpty_iff]
  | cons c t ih =>
    simp only [listContains, Bool.or_eq_true, List.isPrefixOf_iff_prefix, ih,
      List.infix_cons_iff]

/-- The executable substring test on strings is the infix relation on their
character lists. -/
theorem containsSub_iff_infix (page bp : String) :
    containsSub page bp = true ↔ bp.data <:+: page.data :=
  listContains_iff_infix bp.data page.data

/-! ### Branch equations of the validator -/

theorem validate_eq_of_not_approved (data : CitationRequest)
    (fetch : String → FetchResult) (h : data.citation_url ∉ APPROVED) :
    validate_citation data fetch = rejection "URL not in approved list" := by
  unfold validate_citation
  rw [if_pos h]

theorem validate_eq_of_fetch_failure (data : CitationRequest)
    (fetch : String → FetchResult) (e : String)
    (h : data.citation_url ∈ APPROVED)
    (hf : fetch data.citation_url = .failure e) :
    validate_citation data fetch = rejection ("Fetch error: " ++ e) := by
  unfold validate_citation
  rw [if_neg (not_not_intro h), hf]

theorem validate_eq_of_bad_status (data : CitationRequest)
    (fetch : String → FetchResult) (status : Nat) (body : String)
    (h : data.citation_url ∈ APPROVED)
    (hf : fetch data.citation_url = .success status body)
    (hs : status ≠ 200) :
    validate_citation data fetch =
      rejection ("HTTP error code: " ++ toString status) := by
  unfold validate_citation
  rw [if_neg (not_not_intro h), hf]
  simp only [if_pos hs]

theorem validate_eq_of_bad_phrase (data : CitationRequest)
    (fetch : String → FetchResult) (body : String)
    (h : data.citation_url ∈ APPROVED)
    (hf : fetch data.citation_url = .success 200 body)
    (hb : bad_phrases.any (fun bp => containsSub (strLower body) bp) = true) :
    validate_citation data fetch = rejection "Page loads but is broken/moved" := by
  unfold validate_citation
  rw [if_neg (not_not_intro h), hf]
  simp only [ne_eq, not_true_eq_false, if_false, hb, if_true]

theorem validate_eq_of_clean (data : CitationRequest)
    (fetch : String → FetchResult) (body : String)
    (h : data.citation_url ∈ APPROVED)
    (hf : fetch data.citation_url = .success 200 body)
    (hb : bad_phrases.any (fun bp => containsSub (strLower body) bp) = false) :
    validate_citation data fetch =
      { is_approved := true
      , formatted_citation := "(" ++ data.citation_url ++ ")"
      , flag_for_audit := false
      , message := "Citation is approved and working" } := by
  unfold validate_citation
  rw [if_neg (not_not_intro h), hf]
  simp only [ne_eq, not_true_eq_false, if_false, hb, Bool.false_eq_true]

/-! ### Claims about the validator -/

/-- C1: for every `CitationRequest` and every fetch outcome, the verdict has
`is_approved = true` iff the URL is in `APPROVED`, the fetch completed with
status exactly 200, and the lowercased body contains none of the five
broken-page substrings; and in that approved case the verdict is exactly
`formatted_citation = "(<url>)"`, `flag_for_audit = false`,
`message = "Citation is approved and working"`. -/
theorem validate_citation_approved_iff (data : CitationRequest)
    (fetch : String → FetchResult) :
    ((validate_citation data fetch).is_approved = true ↔
      (data.citation_url ∈ APPROVED ∧
        ∃ body, fetch data.citation_url = .success 200 body ∧
          ∀ bp ∈ bad_phrases, containsSub (strLower body) bp = false))
    ∧ ((validate_citation data fetch).is_approved = true →
        validate_citation data fetch =
          { is_approved := true
          , formatted_citation := "(" ++ data.citation_url ++ ")"
          , flag_for_audit := false
          , message := "Citation is approved and working" }) := by
  by_cases hm : data.citation_url ∈ APPROVED
  · cases hf : fetch data.citation_url with
    | failure e =>
      rw [validate_eq_of_fetch_failure data fetch e hm hf]
      simp [rejection, hf]
    | success s b =>
      by_cases hs : s = 200
      · subst hs
        by_cases hb : bad_phrases.any (fun bp => containsSub (strLower b) bp) = true
        · rw [validate_eq_of_bad_phrase data fetch b hm hf hb]
          have hnall : ¬ ∀ bp ∈ bad_phrases, containsSub (strLower b) bp = false := by
            rw [List.any_eq_true] at hb
            obtain ⟨bp, hbp, hc⟩ := hb
            intro hall
            rw [hall bp hbp] at hc
            cases hc
          simp [rejection, hf, hnall]
        · have hb' : bad_phrases.any (fun bp => containsSub (strLower b) bp) = false := by
            simpa using hb
          rw [validate_eq_of_clean data fetch b hm hf hb']
          have hall : ∀ bp ∈ bad_phrases, containsSub (strLower b) bp = false := by
            rw [List.any_eq_false] at hb'
            intro bp hbp
            simpa using hb' bp hbp
          simp [hm, hf]
          exact hall
      · rw [validate_eq_of_bad_status data fetch s b hm hf hs]
        simp [rejection, hf, hs]
  · rw [validate_eq_of_not_approved data fetch hm]
    simp [rejection, hm]

/-- Witness for C1 at a concrete approved URL and a clean 200 fetch. -/
theorem validate_citation_approved_iff_witness :
    (validate_citation ⟨"claim text", "https://radiopaedia.org/"⟩
      (fun _ => .success 200 "all good content")).is_approved = true :=
  (validate_citation_approved_iff ⟨"claim text", "https://radiopaedia.org/"⟩
    (fun _ => .success 200 "all good content")).1.mpr
    ⟨by decide, "all good content", rfl, by decide⟩

/-- C2: on every input and every fetch outcome, the verdict satisfies
`flag_for_audit = !is_approved`. -/
theorem validate_citation_flag_negates (data : CitationRequest)
    (fetch : String → FetchResult) :
    (validate_citation data fetch).flag_for_audit
      = !(validate_citation data fetch).is_approved := by
  by_cases hm : data.citation_url ∈ APPROVED
  · cases hf : fetch data.citation_url with
    | failure e =>
      rw [validate_eq_of_fetch_failure data fetch e hm hf]; rfl
    | success s b =>
      by_cases hs : s = 200
      · subst hs
        by_cases hb : bad_phrases.any (fun bp => containsSub (strLower b) bp) = true
        · rw [validate_eq_of_bad_phrase data fetch b hm hf hb]; rfl
        · rw [validate_eq_of_clean data fetch b hm hf (by simpa using hb)]; rfl
      · rw [validate_eq_of_bad_status data fetch s b hm hf hs]; rfl
  · rw [validate_eq_of_not_approved data fetch hm]; rfl

/-- C3: for every request whose URL is not in `APPROVED`, the verdict is the
fixed "URL not in approved list" rejection for every fetch collaborator, so
the result is independent of the fetcher (the source returns before the
fetch is reached). -/
theorem validate_citation_not_in_list (data : CitationRequest)
    (h : data.citation_url ∉ APPROVED) :
    (∀ fetch, validate_citation data fetch =
      { is_approved := false
      , formatted_citation := "Source limitation for this claim"
      , flag_for_audit := true
      , message := "URL not in approved list" })
    ∧ ∀ fetch₁ fetch₂,
        validate_citation data fetch₁ = validate_citation data fetch₂ := by
  refine ⟨fun fetch => validate_eq_of_not_approved data fetch h, fun f g => ?_⟩
  rw [validate_eq_of_not_approved data f h, validate_eq_of_not_approved data g h]

/-- Witness for C3 at a concrete non-approved URL. -/
theorem validate_citation_not_in_list_witness :
    ("https://example.com/page" ∉ APPROVED)
    ∧ validate_citation ⟨"claim text", "https://example.com/page"⟩
        (fun _ => .success 200 "ok") =
      { is_approved := false
      , formatted_citation := "Source limitation for this claim"
      , flag_for_audit := true
      , message := "URL not in approved list" } :=
  ⟨by decide,
   (validate_citation_not_in_list ⟨"claim text", "https://example.com/page"⟩
     (by decide)).1 (fun _ => .success 200 "ok")⟩

/-- C4: for an approved URL whose fetch returns status 200 with a body whose
lowercasing contains any of the five bad phrases (for instance just the word
"error"), the verdict is the "Page loads but is broken/moved" rejection. -/
theorem validate_citation_broken_page (data : CitationRequest)
    (fetch : String → FetchResult) (body : String)
    (h : data.citation_url ∈ APPROVED)
    (hf : fetch data.citation_url = .success 200 body)
    (hb : ∃ bp ∈ bad_phrases, containsSub (strLower body) bp = true) :
    validate_citation data fetch =
      { is_approved := false
      , formatted_citation := "Source limitation for this claim"
      , flag_for_audit := true
      , message := "Page loads but is broken/moved" } := by
  apply validate_eq_of_bad_phrase data fetch body h hf
  rw [List.any_eq_true]
  exact hb

/-- Witness for C4: the documented false positive, a legitimate body that
merely contains the word "error". -/
theorem validate_citation_broken_page_witness :
    validate_citation ⟨"claim text", "https://radiopaedia.org/"⟩
      (fun _ => .success 200 "A legitimate article about trial and Error learning") =
      { is_approved := false
      , formatted_citation := "Source limitation for this claim"
      , flag_for_audit := true
      , message := "Page loads but is broken/moved" } :=
  validate_citation_broken_page ⟨"claim text", "https://radiopaedia.org/"⟩
    (fun _ => .success 200 "A legitimate article about trial and Error learning")
    "A legitimate article about trial and Error learning"
    (by decide) rfl ⟨"error", by decide, by decide⟩

/-- C5: for an approved URL whose fetch raises a transport-level failure,
the verdict is a rejection whose message is `"Fetch error: "` followed by
the failure detail; `validate_citation` is a total function into
`ValidationVerdict`, so every failure mode is a verdict value and no
exception escapes. -/
theorem validate_citation_fetch_failure (data : CitationRequest)
    (fetch : String → FetchResult) (e : String)
    (h : data.citation_url ∈ APPROVED)
    (hf : fetch data.citation_url = .failure e) :
    validate_citation data fetch =
      { is_approved := false
      , formatted_citation := "Source limitation for this claim"
      , flag_for_audit := true
      , message := "Fetch error: " ++ e } :=
  validate_eq_of_fetch_failure data fetch e h hf

/-- Witness for C5 at a concrete approved URL and a timeout failure. -/
theorem validate_citation_fetch_failure_witness :
    validate_citation ⟨"claim text", "https://perinatology.com/"⟩
      (fun _ => .failure "HTTPSConnectionPool: Read timed out") =
      { is_approved := false
      , formatted_citation := "Source limitation for this claim"
      , flag_for_audit := true
      , message := "Fetch error: HTTPSConnectionPool: Read timed out" } :=
  validate_citation_fetch_failure ⟨"claim text", "https://perinatology.com/"⟩
    (fun _ => .failure "HTTPSConnectionPool: Read timed out")
    "HTTPSConnectionPool: Read timed out" (by decide) rfl

/-- C6: for an approved URL whose fetch completes with a status other than
200, the verdict is a rejection with message `"HTTP error code: <status>"`,
whatever the body is — the broken-page heuristic is never consulted, as the
right-hand side does not depend on `body`. -/
theorem validate_citation_http_error (data : CitationRequest)
    (fetch : String → FetchResult) (status : Nat) (body : String)
    (h : data.citation_url ∈ APPROVED)
    (hf : fetch data.citation_url = .success status body)
    (hs : status ≠ 200) :
    validate_citation data fetch =
      { is_approved := false
      , formatted_citation := "Source limitation for this claim"
      , flag_for_audit := true
      , message := "HTTP error code: " ++ toString status } :=
  validate_eq_of_bad_status data fetch status body h hf hs

/-- Witness for C6 at a 404 response: the message is literally
`"HTTP error code: 404"`, even though the body contains a bad phrase. -/
theorem validate_citation_http_error_witness :
    validate_citation ⟨"claim text", "https://www.obgproject.com/"⟩
      (fun _ => .success 404 "page not found") =
      { is_approved := false
      , formatted_citation := "Source limitation for this claim"
      , flag_for_audit := true
      , message := "HTTP error code: 404" } := by
  rw [validate_citation_http_error ⟨"claim text", "https://www.obgproject.com/"⟩
    (fun _ => .success 404 "page not found") 404 "page not found"
    (by decide) rfl (by decide)]
  decide

/-! ### Claims about the bibliography lookup -/

theorem lookup_citations_eq_none (k : String)
    (hk : k ∉ CITATIONS.map Prod.fst) :
    List.lookup k CITATIONS = none := by
  simp [CITATIONS] at hk
  obtain ⟨h1, h2, h3⟩ := hk
  have e1 : (k == "pcos") = false := beq_eq_false_iff_ne.mpr h1
  have e2 : (k == "endometriosis") = false := beq_eq_false_iff_ne.mpr h2
  have e3 : (k == "preeclampsia") = false := beq_eq_false_iff_ne.mpr h3
  simp [List.lookup, CITATIONS, e1, e2, e3]

/-- C7: with no topic, the response lists every record across all topics
concatenated in topic-insertion order, its count is the sum of the
per-topic counts, its `available_topics` is exactly the key list of the
citations index, and it carries the full approved-source set. -/
theorem get_citations_no_topic :
    (get_citations none).citations
        = pcos_records ++ endometriosis_records ++ preeclampsia_records
    ∧ (get_citations none).count = (CITATIONS.map (fun p => p.2.length)).sum
    ∧ (get_citations none).available_topics = some (CITATIONS.map Prod.fst)
    ∧ (get_citations none).approved_sources = some APPROVED :=
  ⟨rfl, rfl, rfl, rfl⟩

/-- C8: topic lookup is case-insensitive — the response for any topic
string equals the response for its lowercased form, because the source
lowercases the query key before matching. -/
theorem get_citations_case_insensitive (t : String) :
    get_citations (some t) = get_citations (some (strLower t)) := by
  by_cases h : t = ""
  · subst h; rfl
  · have h2 : strLower t ≠ "" := strLower_ne_empty t h
    simp only [get_citations]
    rw [if_pos h, if_pos h2, strLower_idem]

/-- C9: a non-empty topic whose lowercasing is not a key of the citations
index yields an empty list, count 0, a diagnostic message naming the topic,
and the full seeded key list — never a failure. -/
theorem get_citations_unknown_topic (t : String) (h : t ≠ "")
    (hk : strLower t ∉ CITATIONS.map Prod.fst) :
    get_citations (some t) =
      { topic := some (strLower t)
      , citations := []
      , count := 0
      , message := some ("No citations found for topic \x27" ++ strLower t ++ "\x27")
      , available_topics := some ["pcos", "endometriosis", "preeclampsia"]
      , approved_sources := none
      , service := "OB/GYN Citation Microservice"
      , version := "1.0.0" } := by
  have hl : List.lookup (strLower t) CITATIONS = none :=
    lookup_citations_eq_none (strLower t) hk
  simp only [get_citations]
  rw [if_pos h, hl]
  rfl

/-- Witness for C9 at the concrete query `topic=unknown-topic`. -/
theorem get_citations_unknown_topic_witness :
    get_citations (some "unknown-topic") =
      { topic := some "unknown-topic"
      , citations := []
      , count := 0
      , message := some "No citations found for topic \x27unknown-topic\x27"
      , available_topics := some ["pcos", "endometriosis", "preeclampsia"]
      , approved_sources := none
      , service := "OB/GYN Citation Microservice"
      , version := "1.0.0" } := by
  rw [get_citations_unknown_topic "unknown-topic" (by decide) (by decide)]
  decide

/-- C10: the empty-string topic takes the same branch as an absent topic,
because the presence test of the source is Python string truthiness: the
response is the full all-citations response, not the unknown-topic
diagnostic. -/
theorem get_citations_empty_topic :
    get_citations (some "") = get_citations none
    ∧ (get_citations (some "")).message = none
    ∧ (get_citations (some "")).available_topics = some (CITATIONS.map Prod.fst)
    ∧ (get_citations (some "")).approved_sources = some APPROVED :=
  ⟨rfl, rfl, rfl, rfl⟩
